import Mathlib

/-!
# Verification of the event-dispatch layer of the game-catalogue services

Shallow embedding of the reliable event-dispatch subsystem shared by the
message-queue variants of the repository: the RabbitMQ (broadcast exchange)
backend and consumers, the ZeroMQ (push/pull socket) pair, the Kafka
(partitioned log) producer and consumer, and the PGMQ (database-backed
polling queue) pair.  Each definition is translated from the corresponding
Go (or embedded JavaScript) source file; theorems settle the frozen claims
about bootstrap retry, publish durability, payload shape, consumer-loop
finalization order, poison-message handling, shutdown behaviour, and
topology provisioning.
-/

namespace MqDispatch

/-! ## Data model

`Game` mirrors the `Game` struct declared identically in every backend
(`mq-rabbit-go` backend, `mq-pgmq-go/backend/main.go`, `mq-kafka-go`
backend, `mq-zero-go` backend): four fields with JSON tags
`id`, `title`, `description`, `stars`. -/

structure Game where
  id : Int
  title : String
  description : String
  stars : Int
deriving DecidableEq, Repr

/-! ## Go JSON serialization

`encoding/json.Marshal` on a struct emits the fields in declaration order,
keyed by their tags, with Go's string escaping (which also escapes `<`,
`>`, `&` for HTML safety).  We embed flat JSON values and objects, the
escaper, and the renderer. -/

/-- Hexadecimal digit for the low-control-character escape of Go's encoder. -/
def hexDigit (n : Nat) : String :=
  if n = 0 then "0" else if n = 1 then "1" else if n = 2 then "2"
  else if n = 3 then "3" else if n = 4 then "4" else if n = 5 then "5"
  else if n = 6 then "6" else if n = 7 then "7" else if n = 8 then "8"
  else if n = 9 then "9" else if n = 10 then "a" else if n = 11 then "b"
  else if n = 12 then "c" else if n = 13 then "d" else if n = 14 then "e"
  else "f"

/-- One character of Go `encoding/json` string escaping: quote, backslash,
newline, carriage return, tab, the HTML-escaped characters, and other
control characters below 0x20. -/
def goEscapeChar (c : Char) : String :=
  if c = '"' then "\\\""
  else if c = '\\' then "\\\\"
  else if c = '\n' then "\\n"
  else if c = '\r' then "\\r"
  else if c = '\t' then "\\t"
  else if c = '<' then "\\u003c"
  else if c = '>' then "\\u003e"
  else if c = '&' then "\\u0026"
  else if c.toNat < 32 then "\\u00" ++ hexDigit (c.toNat / 16) ++ hexDigit (c.toNat % 16)
  else String.singleton c

/-- Go `encoding/json` escaping applied to a whole string. -/
def goEscape (s : String) : String :=
  String.join (s.toList.map goEscapeChar)

/-- A flat JSON value: number or string (the wire payload has no nesting). -/
inductive JVal where
  | num (n : Int)
  | str (s : String)
deriving DecidableEq, Repr

/-- Render a flat JSON value the way Go's encoder does. -/
def renderJVal : JVal → String
  | .num n => toString n
  | .str s => "\"" ++ goEscape s ++ "\""

/-- Render one `"key":value` member. -/
def renderField (kv : String × JVal) : String :=
  "\"" ++ goEscape kv.1 ++ "\":" ++ renderJVal kv.2

/-- Render the comma-separated members of a JSON object. -/
def renderFields : List (String × JVal) → String
  | [] => ""
  | [kv] => renderField kv
  | kv :: rest => renderField kv ++ "," ++ renderFields rest

/-- Render a flat JSON object. -/
def renderJObj (fs : List (String × JVal)) : String :=
  "\x7b" ++ renderFields fs ++ "\x7d"

/-- The field list of the published game event, in the struct's declaration
order with the struct's JSON tags: `id`, `title`, `description`, `stars`. -/
def gameEventFields (g : Game) : List (String × JVal) :=
  [("id", .num g.id), ("title", .str g.title),
   ("description", .str g.description), ("stars", .num g.stars)]

/-- The byte payload `json.Marshal(game)` produces in every backend's
`handleGameActions`: the JSON text, written out as Go's encoder emits it
(fields in declaration order, keys from the JSON tags). -/
def gameMarshal (g : Game) : String :=
  "\x7b\"id\":" ++ toString g.id
    ++ ",\"title\":\"" ++ goEscape g.title
    ++ "\",\"description\":\"" ++ goEscape g.description
    ++ "\",\"stars\":" ++ toString g.stars ++ "\x7d"

/-- Look up a key in a flat JSON object. -/
def jlookup (fs : List (String × JVal)) (k : String) : Option JVal :=
  match fs.find? (fun kv => kv.1 == k) with
  | some kv => some kv.2
  | none => none

/-! ## Bootstrap connection loops

Each process begins with a bounded retry loop before serving traffic.  The
outcome of the k-th connection attempt is abstracted as `ok k`; the models
below reproduce each source loop's control flow exactly and report how many
attempts were made and whether the loop ended connected. -/

/-- Whether the startup path ends in `log.Fatal` (the process exits without
serving) or proceeds to serve/consume traffic. -/
inductive BootOutcome where
  | fatal
  | serving
deriving DecidableEq, Repr

/-- A bounded attempt-first retry loop: try attempt `start`; on success stop,
otherwise sleep and move to the next attempt, for at most `fuel` attempts.
Returns the number of attempts made and whether one succeeded.  This is the
shape of the loops in `mq-zero-go/email-service/main.go` (connect),
`mq-pgmq-go/backend/main.go` and the other backends (database ping), and
the RabbitMQ consumers (dial). -/
def retryLoop (ok : Nat → Bool) : Nat → Nat → Nat × Bool
  | _, 0 => (0, false)
  | start, fuel + 1 =>
    if ok start then (1, true)
    else ((retryLoop ok (start + 1) fuel).1 + 1, (retryLoop ok (start + 1) fuel).2)

/-- The fixed sleep, in milliseconds, between attempts in every bootstrap
loop of the repository (`time.Sleep(250 * time.Millisecond)`). -/
def bootRetrySleepMs : Nat := 250

/-- The attempt budget written in every bootstrap loop
(`for range 120` / `for i := 0; i < 120; i++`). -/
def bootRetryBudget : Nat := 120

/-- `mq-zero-go/email-service/main.go` lines 31-43: up to 120 `Connect`
attempts, 250ms sleep after each failure. -/
def zmqEmailConnect (ok : Nat → Bool) : Nat × Bool :=
  retryLoop ok 0 bootRetryBudget

/-- `mq-zero-go/email-service/main.go`: `log.Fatalf` when the loop ends with
a non-nil error, otherwise the consumer loop starts. -/
def zmqEmailBoot (ok : Nat → Bool) : BootOutcome :=
  if (zmqEmailConnect ok).2 then .serving else .fatal

/-- The RabbitMQ email consumer's dial sequence: one initial `amqp.Dial`
before the loop, then a loop of 120 iterations that breaks when the last
error is nil and otherwise sleeps 250ms and redials.  Counts `Dial` calls:
when every dial fails this makes 1 + 120 = 121 attempts. -/
def rabbitEmailDial (ok : Nat → Bool) : Nat × Bool :=
  if ok 0 then (1, true)
  else ((retryLoop ok 1 bootRetryBudget).1 + 1, (retryLoop ok 1 bootRetryBudget).2)

/-- The RabbitMQ email consumer: `log.Fatalf` when the error is still
non-nil after the loop. -/
def rabbitEmailBoot (ok : Nat → Bool) : BootOutcome :=
  if (rabbitEmailDial ok).2 then .serving else .fatal

/-- `mq-pgmq-go/backend/main.go` lines 44-56: up to 120 `db.Ping` attempts
with a 250ms sleep after each failure. -/
def pgmqBackendDbWait (ok : Nat → Bool) : Nat × Bool :=
  retryLoop ok 0 bootRetryBudget

/-- `mq-pgmq-go/backend/main.go`: after the ping loop, `main` falls through
to `runMigrations` and `ListenAndServe` without checking whether any ping
succeeded — loop exhaustion is not a fatal error in this file. -/
def pgmqBackendDbBoot (ok : Nat → Bool) : BootOutcome :=
  match pgmqBackendDbWait ok with
  | _ => .serving

/-! ## AMQP topology provisioning

The RabbitMQ processes declare durable resources at startup.  A broker's
state is the list of already-declared resources; `QueueDeclare` and
`ExchangeDeclare` are create-if-absent and fail (AMQP 406
precondition-failed, which `streadway/amqp` surfaces as an error) only when
a resource of the same name exists with different parameters. -/

/-- A declarable AMQP resource with the parameters the source passes:
queues with (durable, autoDelete, exclusive), exchanges with
(type, durable, autoDelete, internal). -/
inductive AmqpRes where
  | queue (name : String) (durable autoDelete exclusive : Bool)
  | exch (name : String) (ty : String) (durable autoDelete internal : Bool)
deriving DecidableEq, Repr

/-- The identity of a resource: queues and exchanges live in separate
namespaces, keyed by name. -/
def AmqpRes.key : AmqpRes → Bool × String
  | .queue n _ _ _ => (true, n)
  | .exch n _ _ _ _ => (false, n)

/-- AMQP declare semantics: create the resource if absent; succeed as a
no-op if it exists with identical parameters; fail on a parameter
mismatch. -/
def declareRes (s : List AmqpRes) (r : AmqpRes) : Option (List AmqpRes) :=
  match s.find? (fun b => b.key == r.key) with
  | some b => if b = r then some s else none
  | none => some (s ++ [r])

/-- Declare a list of resources in order, stopping at the first failure. -/
def declareAll (s : List AmqpRes) : List AmqpRes → Option (List AmqpRes)
  | [] => some s
  | r :: rs =>
    match declareRes s r with
    | some s1 => declareAll s1 rs
    | none => none

/-- Whether an exchange of the given name exists in the broker state. -/
def exchangeExists (s : List AmqpRes) (name : String) : Bool :=
  s.any (fun b => b.key == (false, name))

/-- The declarations the RabbitMQ backend performs in `main` before
serving: `QueueDeclare("email_queue", true, false, false, false, nil)` and
nothing else — the backend declares no exchange. -/
def rabbitBackendTopology : List AmqpRes :=
  [.queue "email_queue" true false false]

/-- The declarations of the RabbitMQ email consumer:
`QueueDeclare("email_queue", true, false, false, false, nil)` and
`ExchangeDeclare("game_events", "fanout", true, false, false, false, nil)`
(the `QueueBind` that follows is not a declaration). -/
def rabbitEmailTopology : List AmqpRes :=
  [.queue "email_queue" true false false,
   .exch "game_events" "fanout" true false false]

/-- The declarations of the RabbitMQ fulfillment consumer:
`QueueDeclare("fulfillment_queue", ...)` and the same
`ExchangeDeclare("game_events", "fanout", ...)`. -/
def rabbitFulfillmentTopology : List AmqpRes :=
  [.queue "fulfillment_queue" true false false,
   .exch "game_events" "fanout" true false false]

/-! ## Publisher

The RabbitMQ backend's `handleGameActions` publishes the marshalled game
with `rabbitCh.Publish("game_events", "", false, false, amqp.Publishing{
ContentType: "application/json", Body: body, DeliveryMode: 2})`. -/

/-- The `amqp.Publishing` message the backend constructs. -/
structure AmqpPublishing where
  contentType : String
  body : String
  deliveryMode : Nat
deriving DecidableEq, Repr

/-- One `Channel.Publish` call: exchange, routing key, the mandatory and
immediate flags, and the message. -/
structure AmqpPublishCall where
  exchange : String
  routingKey : String
  mandatory : Bool
  immediate : Bool
  msg : AmqpPublishing
deriving DecidableEq, Repr

/-- The publish call the RabbitMQ backend issues for an updated game
(`handleGameActions`, star branch): to the `game_events` exchange with an
empty routing key, content type `application/json`, delivery mode 2
(persistent). -/
def rabbitStarPublish (g : Game) : AmqpPublishCall :=
  { exchange := "game_events"
    routingKey := ""
    mandatory := false
    immediate := false
    msg := { contentType := "application/json"
             body := gameMarshal g
             deliveryMode := 2 } }

/-! ## The star HTTP handler

`handleGameActions` (star branch) in each backend: run the
`UPDATE ... RETURNING` statement, then attempt the publish, then write the
HTTP response.  The handler's behaviour is embedded as the ordered trace
of its externally visible effects. -/

/-- Result of the `UPDATE games SET stars = stars + 1 ... RETURNING`
query: no matching row, a database error, or the updated row. -/
inductive UpdateResult where
  | noRows
  | dbErr (msg : String)
  | updated (g : Game)
deriving DecidableEq, Repr

/-- An externally visible effect of the handler, in program order. -/
inductive HandlerEffect where
  | dbUpdateStars (gameID : Int)
  | publishAttempt (payload : String) (ok : Bool)
  | logPublishFailure
  | respond (status : Nat) (body : Option String)
deriving DecidableEq, Repr

/-- Whether an effect touches the database. -/
def HandlerEffect.isDb : HandlerEffect → Bool
  | .dbUpdateStars _ => true
  | _ => false

/-- `mq-pgmq-go/backend/main.go` `handleGameActions`, star branch (the
RabbitMQ and Kafka backends have the same structure around their own
publish call): issue the update; on `sql.ErrNoRows` respond 404, on another
error respond 500; otherwise marshal the game, attempt the publish, log on
publish failure, and in every publish outcome respond 200 with the updated
game.  No effect ever undoes the update. -/
def handleStar (gameID : Int) (upd : UpdateResult) (publishOk : Bool) :
    List HandlerEffect :=
  match upd with
  | .noRows => [.dbUpdateStars gameID, .respond 404 none]
  | .dbErr _ => [.dbUpdateStars gameID, .respond 500 none]
  | .updated g =>
    [.dbUpdateStars gameID, .publishAttempt (gameMarshal g) publishOk]
      ++ (if publishOk then [] else [.logPublishFailure])
      ++ [.respond 200 (some (gameMarshal g))]

/-! ## Consumer loops: per-message event traces

Each consumer's handling of one delivered message is embedded as an
ordered list of events.  "Finalize" means the success finalization the
spec names: acknowledge (broadcast), archive (polling), offset commit
(log). -/

/-- Events in the handling of one delivered message. -/
inductive ConsumerEvent where
  | pull
  | deserializeOk
  | deserializeFail
  | process
  | ack
  | archive
  | archiveFailed
  | commitOffset
  | deleteDead
deriving DecidableEq, Repr

/-- Whether an event is a success-finalization (acknowledge, archive, or
offset commit). -/
def ConsumerEvent.isFinalize : ConsumerEvent → Bool
  | .ack => true
  | .archive => true
  | .commitOffset => true
  | _ => false

/-- A trace finalizes only after processing when every finalize event is
preceded by a process event for the current message (i.e. since the last
pull). -/
def finalizeOnlyAfterProcessAux : List ConsumerEvent → Bool → Bool
  | [], _ => true
  | e :: rest, processed =>
    match e with
    | .pull => finalizeOnlyAfterProcessAux rest false
    | .process => finalizeOnlyAfterProcessAux rest true
    | .ack => processed && finalizeOnlyAfterProcessAux rest processed
    | .archive => processed && finalizeOnlyAfterProcessAux rest processed
    | .commitOffset => processed && finalizeOnlyAfterProcessAux rest processed
    | _ => finalizeOnlyAfterProcessAux rest processed

/-- Whether every finalize event of the trace comes after the processing of
the message it finalizes. -/
def finalizeOnlyAfterProcess (t : List ConsumerEvent) : Bool :=
  finalizeOnlyAfterProcessAux t false

/-- The RabbitMQ email consumer's handling of one delivery
(`for d := range msgs`): log/process the body (the simulated email), then
`d.Ack(false)`. -/
def rabbitEmailMsgTrace : List ConsumerEvent :=
  [.pull, .process, .ack]

/-- The RabbitMQ fulfillment consumer's handling of one delivery: process
(the simulated fulfillment), then `d.Ack(false)`. -/
def rabbitFulfillmentMsgTrace : List ConsumerEvent :=
  [.pull, .process, .ack]

/-- The Kafka email consumer's handling of one message.  The source calls
`reader.ReadMessage(ctx)` on a reader configured with a `GroupID`;
`segmentio/kafka-go` documents that `ReadMessage` then commits the offset
of the returned message as part of the call — before the caller processes
it.  The loop body contains no explicit commit after processing. -/
def kafkaEmailMsgTrace : List ConsumerEvent :=
  [.pull, .commitOffset, .process]

/-! ## The PGMQ consumer as a queue transition system

`mq-pgmq-go/email-service/main.go`: each iteration reads one message with
`pgmq.read` (30s visibility timeout).  A payload whose `json.Unmarshal`
fails is deleted with `pgmq.delete` and the loop continues; a well-formed
payload is processed and then archived with `pgmq.archive`; if the archive
call errors the loop continues and the message reappears when its
visibility timeout lapses. -/

/-- A message in the PGMQ queue.  `payload = none` stands for a payload on
which `json.Unmarshal` into `GameEvent` fails; `archiveOk` is whether the
`pgmq.archive` call for this message succeeds. -/
structure PgmqMessage where
  msgId : Nat
  readCt : Nat
  payload : Option Game
  archiveOk : Bool
deriving DecidableEq, Repr

/-- One iteration of the PGMQ consumer on the available queue: pull the
head; delete it without processing when deserialization fails; process and
archive it otherwise, re-enqueueing it (visibility-timeout lapse, read
count incremented) when the archive call fails.  Returns the new queue and
the iteration's event trace. -/
def pgmqConsumeStep : List PgmqMessage → List PgmqMessage × List ConsumerEvent
  | [] => ([], [])
  | m :: rest =>
    match m.payload with
    | none => (rest, [.pull, .deserializeFail, .deleteDead])
    | some _ =>
      if m.archiveOk then
        (rest, [.pull, .deserializeOk, .process, .archive])
      else
        (rest ++ [{ m with readCt := m.readCt + 1 }],
         [.pull, .deserializeOk, .process, .archiveFailed])

/-- The message ids the consumer pulls over the next `n` iterations. -/
def pgmqPulledIds : List PgmqMessage → Nat → List Nat
  | _, 0 => []
  | [], _ + 1 => []
  | m :: rest, n + 1 =>
    m.msgId :: pgmqPulledIds (pgmqConsumeStep (m :: rest)).1 n

/-! ## Consumer loop shutdown structure

Each consumer loop either checks a cancellation signal at the top of every
iteration (the PGMQ consumer's `select` on `ctx.Done()`, the Kafka
consumer's `select` on `ctx.Done()` fed by SIGINT/SIGTERM) or has no
shutdown handling at all (the RabbitMQ consumers' bare `for d := range
msgs`, the ZeroMQ consumer's bare `for`).  An iteration that runs executes
its whole body; cancellation is observed only between iterations. -/

/-- The static shape of one consumer loop: whether the top of each
iteration checks the shutdown signal, and the actions of one iteration. -/
structure LoopModel where
  checksShutdown : Bool
  body : List ConsumerEvent
deriving DecidableEq, Repr

/-- The Kafka email consumer loop: checks `ctx.Done()` each iteration,
then reads (which commits the offset) and processes. -/
def kafkaLoop : LoopModel :=
  { checksShutdown := true, body := kafkaEmailMsgTrace }

/-- The PGMQ email consumer loop: checks `ctx.Done()` each iteration, then
reads, deserializes, processes and archives. -/
def pgmqLoop : LoopModel :=
  { checksShutdown := true
    body := [.pull, .deserializeOk, .process, .archive] }

/-- The RabbitMQ email consumer loop: `for d := range msgs` with no signal
handling anywhere in the file. -/
def rabbitEmailLoop : LoopModel :=
  { checksShutdown := false, body := rabbitEmailMsgTrace }

/-- The ZeroMQ email consumer loop: an unconditional `for` with no signal
handling anywhere in the file. -/
def zmqEmailLoop : LoopModel :=
  { checksShutdown := false, body := [.pull, .process] }

/-- Run a consumer loop for at most `fuel` iterations, numbering them from
`start`, with the shutdown signal delivered before iteration
`shutdownAt`: a loop that checks the signal stops before pulling once the
signal is set; a loop that does not check keeps iterating.  Emits each
executed action tagged with its iteration. -/
def runLoopFrom (m : LoopModel) (shutdownAt : Nat) :
    Nat → Nat → List (Nat × ConsumerEvent)
  | _, 0 => []
  | start, fuel + 1 =>
    if m.checksShutdown = true ∧ shutdownAt ≤ start then []
    else m.body.map (fun e => (start, e)) ++ runLoopFrom m shutdownAt (start + 1) fuel

/-- Run a consumer loop from iteration 0. -/
def runLoop (m : LoopModel) (shutdownAt fuel : Nat) : List (Nat × ConsumerEvent) :=
  runLoopFrom m shutdownAt 0 fuel

/-! ## The Kafka reader configuration

`mq-kafka-go` email consumer, `kafka.NewReader(kafka.ReaderConfig{...})`. -/

/-- The two `StartOffset` policies of `segmentio/kafka-go`. -/
inductive KafkaStartPos where
  | firstOffset
  | lastOffset
deriving DecidableEq, Repr

/-- The reader configuration fields the source sets. -/
structure KafkaReaderConfig where
  topic : String
  groupID : String
  minBytes : Nat
  maxBytes : Nat
  maxWaitSeconds : Nat
  startOffset : KafkaStartPos
deriving DecidableEq, Repr

/-- The configuration of the email service's Kafka reader: topic
`game-events`, consumer group `email-service-group`, `MinBytes: 10e1`,
`MaxBytes: 10e6`, `MaxWait: 1 * time.Second`,
`StartOffset: kafka.LastOffset`. -/
def emailReaderConfig : KafkaReaderConfig :=
  { topic := "game-events"
    groupID := "email-service-group"
    minBytes := 100
    maxBytes := 10000000
    maxWaitSeconds := 1
    startOffset := .lastOffset }

/-- The first offset a consumer group with no committed offset starts
reading from, per kafka-go's documented `StartOffset` semantics:
`FirstOffset` reads the partition from the beginning, `LastOffset` from
the log end at the time the group first starts. -/
def initialGroupOffset (cfg : KafkaReaderConfig) (logLenAtFirstStart : Nat) : Nat :=
  match cfg.startOffset with
  | .firstOffset => 0
  | .lastOffset => logLenAtFirstStart

/-- The messages such a group ever receives from a partition whose full
append sequence is `log`, when the log held `lenAtFirstStart` messages at
the moment the group first started. -/
def deliveredToGroup (cfg : KafkaReaderConfig) (log : List String)
    (lenAtFirstStart : Nat) : List String :=
  log.drop (initialGroupOffset cfg lenAtFirstStart)

/-! ## Helper lemmas -/

/-- A bounded retry loop makes at most `fuel` attempts. -/
theorem retryLoop_attempts_le (ok : Nat → Bool) :
    ∀ (fuel start : Nat), (retryLoop ok start fuel).1 ≤ fuel := by
  intro fuel
  induction fuel with
  | zero => intro start; simp [retryLoop]
  | succ k ih =>
    intro start
    by_cases h : ok start
    · simp [retryLoop, h]
    · simp only [retryLoop, h, if_false]
      exact Nat.succ_le_succ (ih (start + 1))

/-- Redeclaring a resource that a successful declare just handled succeeds
and changes nothing: AMQP declaration is idempotent. -/
theorem declareRes_idem (s : List AmqpRes) (r : AmqpRes) (s1 : List AmqpRes)
    (h : declareRes s r = some s1) : declareRes s1 r = some s1 := by
  unfold declareRes at h ⊢
  cases hf : s.find? (fun b => b.key == r.key) with
  | some b =>
    rw [hf] at h
    by_cases hb : b = r
    · simp only [hb, if_true] at h
      obtain rfl : s = s1 := by injection h
      rw [hf]
      simp [hb]
    · simp [hb] at h
  | none =>
    rw [hf] at h
    obtain rfl : s ++ [r] = s1 := by injection h
    rw [List.find?_append, hf]
    simp [List.find?]

/-- A consumer-loop step never invents message ids: the ids in the queue
after one iteration were already in the queue. -/
theorem pgmqConsumeStep_ids_subset (q : List PgmqMessage) :
    ∀ x, x ∈ (pgmqConsumeStep q).1.map PgmqMessage.msgId →
      x ∈ q.map PgmqMessage.msgId := by
  intro x hx
  cases q with
  | nil => simp [pgmqConsumeStep] at hx
  | cons m rest =>
    obtain ⟨mid, rc, pl, ao⟩ := m
    cases pl with
    | none => simp [pgmqConsumeStep] at hx; simp [hx]
    | some g =>
      cases ao with
      | true => simp [pgmqConsumeStep] at hx; simp [hx]
      | false =>
        simp [pgmqConsumeStep] at hx
        rcases hx with hx | hx <;> simp [hx]

/-- Every message id the consumer ever pulls was in the queue to begin
with. -/
theorem pgmqPulledIds_subset :
    ∀ (n : Nat) (q : List PgmqMessage) (x : Nat),
      x ∈ pgmqPulledIds q n → x ∈ q.map PgmqMessage.msgId := by
  intro n
  induction n with
  | zero => intro q x hx; simp [pgmqPulledIds] at hx
  | succ k ih =>
    intro q x hx
    cases q with
    | nil => simp [pgmqPulledIds] at hx
    | cons m rest =>
      simp only [pgmqPulledIds, List.mem_cons] at hx
      rcases hx with hx | hx
      · simp [hx]
      · exact pgmqConsumeStep_ids_subset (m :: rest) x (ih _ x hx)

/-- In a loop that checks the shutdown signal at the top of each
iteration, every executed action belongs to an iteration that started
before the signal. -/
theorem runLoopFrom_iter_lt (m : LoopModel) (hm : m.checksShutdown = true)
    (s : Nat) :
    ∀ (fuel start i : Nat) (e : ConsumerEvent),
      (i, e) ∈ runLoopFrom m s start fuel → i < s := by
  intro fuel
  induction fuel with
  | zero => intro start i e h; simp [runLoopFrom] at h
  | succ k ih =>
    intro start i e h
    simp only [runLoopFrom] at h
    by_cases hs : s ≤ start
    · simp [hm, hs] at h
    · rw [if_neg (by simp [hs])] at h
      rcases List.mem_append.mp h with h1 | h2
      · obtain ⟨a, _, ha⟩ := List.mem_map.mp h1
        have : start = i := congrArg Prod.fst ha
        omega
      · exact ih (start + 1) i e h2

/-- An iteration that executes at all executes its whole body: if one of
its actions appears in the run, so does every other action of the body,
tagged with the same iteration. -/
theorem runLoopFrom_iter_full (m : LoopModel) (s : Nat) :
    ∀ (fuel start i : Nat) (e e2 : ConsumerEvent),
      (i, e) ∈ runLoopFrom m s start fuel → e2 ∈ m.body →
      (i, e2) ∈ runLoopFrom m s start fuel := by
  intro fuel
  induction fuel with
  | zero => intro start i e e2 h _; simp [runLoopFrom] at h
  | succ k ih =>
    intro start i e e2 h h2
    simp only [runLoopFrom] at h ⊢
    by_cases hc : m.checksShutdown = true ∧ s ≤ start
    · rw [if_pos hc] at h
      simp at h
    · rw [if_neg hc] at h ⊢
      rcases List.mem_append.mp h with h1 | h1
      · obtain ⟨a, _, ha⟩ := List.mem_map.mp h1
        obtain rfl : start = i := congrArg Prod.fst ha
        exact List.mem_append.mpr (Or.inl (List.mem_map.mpr ⟨e2, h2, rfl⟩))
      · exact List.mem_append.mpr (Or.inr (ih (start + 1) i e e2 h1 h2))

/-- A loop with no shutdown check executes iteration `i` whenever the fuel
reaches it, regardless of the signal. -/
theorem runLoopFrom_no_check_mem (m : LoopModel) (hm : m.checksShutdown = false)
    (s : Nat) (e : ConsumerEvent) (he : e ∈ m.body) :
    ∀ (fuel start i : Nat), start ≤ i → i < start + fuel →
      (i, e) ∈ runLoopFrom m s start fuel := by
  intro fuel
  induction fuel with
  | zero => intro start i h1 h2; omega
  | succ k ih =>
    intro start i h1 h2
    simp only [runLoopFrom]
    rw [if_neg (by simp [hm])]
    by_cases hi : i = start
    · exact List.mem_append.mpr (Or.inl (List.mem_map.mpr ⟨e, he, by rw [hi]⟩))
    · exact List.mem_append.mpr (Or.inr (ih (start + 1) i (by omega) (by omega)))

/-! ## Claims -/

/-- C1, counterexample: the Kafka email consumer's handling of a message
does not finalize only after processing — the offset commit happens inside
`ReadMessage`, before the processing step, so the log-substrate variant
finalizes a delivered message before processing it. -/
theorem c1_kafka_commits_before_processing :
    finalizeOnlyAfterProcess kafkaEmailMsgTrace = false ∧
    ConsumerEvent.commitOffset ∈ kafkaEmailMsgTrace := by
  decide

/-- C1, amended: the broadcast consumers (email and fulfillment) finalize
(acknowledge) only after processing completes, and the polling (PGMQ)
consumer archives only after processing, in every reachable iteration; the
log (Kafka) consumer however commits its offset at read time, before
processing, and has no finalization after processing. -/
theorem c1_finalize_order_amended :
    finalizeOnlyAfterProcess rabbitEmailMsgTrace = true ∧
    finalizeOnlyAfterProcess rabbitFulfillmentMsgTrace = true ∧
    (∀ q : List PgmqMessage,
      finalizeOnlyAfterProcess (pgmqConsumeStep q).2 = true) ∧
    finalizeOnlyAfterProcess kafkaEmailMsgTrace = false := by
  refine ⟨by decide, by decide, ?_, by decide⟩
  intro q
  cases q with
  | nil => rfl
  | cons m rest =>
    obtain ⟨mid, rc, pl, ao⟩ := m
    cases pl with
    | none => rfl
    | some g =>
      cases ao with
      | true => rfl
      | false => rfl

/-- C2, counterexample: when every attempt fails, the RabbitMQ email
consumer makes 121 dial attempts (one before its retry loop plus 120 in
it), not 120; and the PGMQ backend's database-wait loop does not report a
fatal error on exhaustion — `main` proceeds to serve regardless. -/
theorem c2_retry_budget_deviations :
    (rabbitEmailDial (fun _ => false)).1 = 121 ∧
    (pgmqBackendDbWait (fun _ => false)).2 = false ∧
    pgmqBackendDbBoot (fun _ => false) = BootOutcome.serving := by
  exact ⟨by decide, by decide, rfl⟩

/-- C2, amended: every transport-connection bootstrap retries in a bounded
loop with a fixed 250ms sleep — up to 120 attempts for the ZeroMQ
consumer's connect loop and the PGMQ backend's database-wait loop, and up
to 121 dial attempts for the RabbitMQ email consumer; on exhaustion the
ZeroMQ consumer and RabbitMQ consumer report a fatal error and do not
serve, while the PGMQ backend's database-wait loop proceeds to serve
without a fatal error. -/
theorem c2_bounded_retry_amended (ok : Nat → Bool) :
    (zmqEmailConnect ok).1 ≤ 120 ∧
    (pgmqBackendDbWait ok).1 ≤ 120 ∧
    (rabbitEmailDial ok).1 ≤ 121 ∧
    bootRetrySleepMs = 250 ∧
    ((zmqEmailConnect ok).2 = false → zmqEmailBoot ok = BootOutcome.fatal) ∧
    ((rabbitEmailDial ok).2 = false → rabbitEmailBoot ok = BootOutcome.fatal) ∧
    pgmqBackendDbBoot ok = BootOutcome.serving := by
  refine ⟨retryLoop_attempts_le ok 120 0, retryLoop_attempts_le ok 120 0, ?_,
    rfl, ?_, ?_, rfl⟩
  · unfold rabbitEmailDial
    by_cases h : ok 0
    · simp [h]
    · simp only [h, if_false]
      exact Nat.succ_le_succ (retryLoop_attempts_le ok 120 1)
  · intro h
    simp [zmqEmailBoot, h]
  · intro h
    simp [rabbitEmailBoot, h]

/-- C2, witness: with a permanently failing endpoint, the budget is
exhausted and the fatal outcomes of the amended claim are reached. -/
theorem c2_bounded_retry_witness :
    (zmqEmailConnect (fun _ => false)).2 = false ∧
    zmqEmailBoot (fun _ => false) = BootOutcome.fatal ∧
    (rabbitEmailDial (fun _ => false)).2 = false ∧
    rabbitEmailBoot (fun _ => false) = BootOutcome.fatal := by
  have h := c2_bounded_retry_amended (fun _ => false)
  exact ⟨by decide, h.2.2.2.2.1 (by decide), by decide, h.2.2.2.2.2.1 (by decide)⟩

/-- C3: when the star update has committed and the publish then fails, the
handler logs the failure, performs no further database effect (in
particular nothing that would undo the update), and still responds 200
with the updated game — the same response as when the publish succeeds. -/
theorem c3_publish_failure_no_rollback (gid : Int) (g : Game) :
    handleStar gid (.updated g) false =
      [.dbUpdateStars gid, .publishAttempt (gameMarshal g) false,
       .logPublishFailure, .respond 200 (some (gameMarshal g))] ∧
    (handleStar gid (.updated g) false).filter HandlerEffect.isDb =
      [.dbUpdateStars gid] ∧
    (handleStar gid (.updated g) false).filter HandlerEffect.isDb =
      (handleStar gid (.updated g) true).filter HandlerEffect.isDb := by
  exact ⟨rfl, rfl, rfl⟩

/-- C4: a message whose payload fails deserialization is deleted from the
queue immediately without being processed, the loop continues with the
rest of the queue, and — since a pulled id always comes from the queue —
the deleted message is never pulled again. -/
theorem c4_poison_message_dead (m : PgmqMessage) (rest : List PgmqMessage)
    (n : Nat) (hm : m.payload = none) :
    pgmqConsumeStep (m :: rest) =
      (rest, [.pull, .deserializeFail, .deleteDead]) ∧
    ConsumerEvent.process ∉ (pgmqConsumeStep (m :: rest)).2 ∧
    (m.msgId ∉ rest.map PgmqMessage.msgId →
      m.msgId ∉ pgmqPulledIds rest n) := by
  obtain ⟨mid, rc, pl, ao⟩ := m
  cases hm
  refine ⟨rfl, by simp [pgmqConsumeStep], ?_⟩
  intro h hc
  exact h (pgmqPulledIds_subset n rest _ hc)

/-- C4, witness: a malformed message at the head of a singleton queue is
deleted without processing and its id is not pulled in the following
iterations. -/
theorem c4_poison_message_witness :
    pgmqConsumeStep [⟨1, 0, none, true⟩] =
      ([], [.pull, .deserializeFail, .deleteDead]) ∧
    (1 : Nat) ∉ pgmqPulledIds [] 5 := by
  have h := c4_poison_message_dead ⟨1, 0, none, true⟩ [] 5 rfl
  exact ⟨h.1, h.2.2 (by simp)⟩

/-- C5, counterexample: the RabbitMQ backend's publish targets the
`game_events` exchange, but provisioning the backend's own topology from
an empty broker leaves no such exchange — the backend declares only the
`email_queue` queue, so it does not provision the topology its publish
requires. -/
theorem c5_backend_missing_exchange :
    (rabbitStarPublish ⟨1, "a", "b", 1⟩).exchange = "game_events" ∧
    declareAll [] rabbitBackendTopology = some rabbitBackendTopology ∧
    exchangeExists rabbitBackendTopology "game_events" = false := by
  exact ⟨rfl, by decide, by decide⟩

/-- C5, amended: before the first publish the RabbitMQ backend provisions
only the durable queue `email_queue`; the `game_events` exchange that its
publish targets is not declared by the backend but by the consumers (the
email and fulfillment services each declare it durable). -/
theorem c5_provisioning_amended :
    declareAll [] rabbitBackendTopology = some rabbitBackendTopology ∧
    AmqpRes.queue "email_queue" true false false ∈ rabbitBackendTopology ∧
    exchangeExists rabbitBackendTopology "game_events" = false ∧
    (∀ g : Game, (rabbitStarPublish g).exchange = "game_events") ∧
    AmqpRes.exch "game_events" "fanout" true false false ∈ rabbitEmailTopology ∧
    AmqpRes.exch "game_events" "fanout" true false false ∈
      rabbitFulfillmentTopology := by
  exact ⟨by decide, by decide, by decide, fun _ => rfl, by decide, by decide⟩

/-- C6: provisioning is idempotent — a declare that succeeded succeeds
again unchanged when repeated, and the full set of declarations the
backend and both consumers issue (including the repeated declarations of
`email_queue` and `game_events`) succeeds from an empty broker. -/
theorem c6_idempotent_topology :
    (∀ (s : List AmqpRes) (r : AmqpRes) (s1 : List AmqpRes),
      declareRes s r = some s1 → declareRes s1 r = some s1) ∧
    declareAll []
      (rabbitBackendTopology ++ rabbitEmailTopology ++
        rabbitFulfillmentTopology ++ rabbitEmailTopology) =
      some [.queue "email_queue" true false false,
            .exch "game_events" "fanout" true false false,
            .queue "fulfillment_queue" true false false] := by
  exact ⟨declareRes_idem, by decide⟩

/-- C6, witness: declaring the durable `email_queue` on an empty broker
and then declaring it again succeeds both times with the same state. -/
theorem c6_idempotent_topology_witness :
    declareRes [] (AmqpRes.queue "email_queue" true false false) =
      some [AmqpRes.queue "email_queue" true false false] ∧
    declareRes [AmqpRes.queue "email_queue" true false false]
      (AmqpRes.queue "email_queue" true false false) =
      some [AmqpRes.queue "email_queue" true false false] := by
  exact ⟨by decide, c6_idempotent_topology.1 [] _ _ (by decide)⟩

/-- C7, counterexample: the RabbitMQ email consumer loop has no shutdown
handling — with the shutdown signal delivered before the first iteration
it still starts a pull. -/
theorem c7_rabbit_ignores_shutdown :
    rabbitEmailLoop.checksShutdown = false ∧
    (0, ConsumerEvent.pull) ∈ runLoop rabbitEmailLoop 0 1 := by
  decide

/-- C7, amended: the PGMQ and Kafka consumer loops check the shutdown
signal before each pull, so after the signal no action (in particular no
pull) of a new iteration runs, and every iteration that pulls runs its
whole body to completion (graceful drain of the in-flight message); the
RabbitMQ and ZeroMQ consumer loops have no shutdown handling and keep
pulling after the signal. -/
theorem c7_shutdown_amended :
    (∀ (s fuel i : Nat) (e : ConsumerEvent),
      (i, e) ∈ runLoop kafkaLoop s fuel → i < s) ∧
    (∀ (s fuel i : Nat) (e : ConsumerEvent),
      (i, e) ∈ runLoop pgmqLoop s fuel → i < s) ∧
    (∀ (s fuel i : Nat), (i, .pull) ∈ runLoop kafkaLoop s fuel →
      (i, .process) ∈ runLoop kafkaLoop s fuel) ∧
    (∀ (s fuel i : Nat), (i, .pull) ∈ runLoop pgmqLoop s fuel →
      (i, .process) ∈ runLoop pgmqLoop s fuel ∧
      (i, .archive) ∈ runLoop pgmqLoop s fuel) ∧
    (∀ s : Nat, (s, ConsumerEvent.pull) ∈ runLoop rabbitEmailLoop s (s + 1)) ∧
    (∀ s : Nat, (s, ConsumerEvent.pull) ∈ runLoop zmqEmailLoop s (s + 1)) := by
  refine ⟨?_, ?_, ?_, ?_, ?_, ?_⟩
  · intro s fuel i e h
    exact runLoopFrom_iter_lt kafkaLoop rfl s fuel 0 i e h
  · intro s fuel i e h
    exact runLoopFrom_iter_lt pgmqLoop rfl s fuel 0 i e h
  · intro s fuel i h
    exact runLoopFrom_iter_full kafkaLoop s fuel 0 i _ _ h (by decide)
  · intro s fuel i h
    exact ⟨runLoopFrom_iter_full pgmqLoop s fuel 0 i _ _ h (by decide),
      runLoopFrom_iter_full pgmqLoop s fuel 0 i _ _ h (by decide)⟩
  · intro s
    exact runLoopFrom_no_check_mem rabbitEmailLoop rfl s .pull (by decide)
      (s + 1) 0 s (Nat.zero_le s) (by omega)
  · intro s
    exact runLoopFrom_no_check_mem zmqEmailLoop rfl s .pull (by decide)
      (s + 1) 0 s (Nat.zero_le s) (by omega)

/-- C7, witness: with the shutdown signal before iteration 1 and fuel for
three iterations, the Kafka loop pulls at iteration 0, that iteration is
before the signal, its processing completes, and the unguarded RabbitMQ
loop still pulls at iteration 1. -/
theorem c7_shutdown_witness :
    (0, ConsumerEvent.pull) ∈ runLoop kafkaLoop 1 3 ∧
    (0 : Nat) < 1 ∧
    (0, ConsumerEvent.process) ∈ runLoop kafkaLoop 1 3 ∧
    (1, ConsumerEvent.pull) ∈ runLoop rabbitEmailLoop 1 2 := by
  have h := c7_shutdown_amended
  refine ⟨by decide, ?_, ?_, ?_⟩
  · exact h.1 1 3 0 ConsumerEvent.pull (by decide)
  · exact h.2.2.1 1 3 0 (by decide)
  · exact h.2.2.2.2.1 1

/-- C8: the payload every backend publishes is the JSON rendering of an
object carrying exactly the four fields `id` (number), `title` (string),
`description` (string), `stars` (number) of the updated game, in that
order; concretely, for game 7 "Zelda" with 5 stars the payload is the
expected JSON text. -/
theorem c8_wire_payload (g : Game) :
    gameMarshal g = renderJObj (gameEventFields g) ∧
    (gameEventFields g).map Prod.fst = ["id", "title", "description", "stars"] ∧
    jlookup (gameEventFields g) "id" = some (.num g.id) ∧
    jlookup (gameEventFields g) "title" = some (.str g.title) ∧
    jlookup (gameEventFields g) "description" = some (.str g.description) ∧
    jlookup (gameEventFields g) "stars" = some (.num g.stars) ∧
    (gameEventFields g).length = 4 ∧
    gameMarshal ⟨7, "Zelda", "classic", 5⟩ =
      "\x7b\"id\":7,\"title\":\"Zelda\",\"description\":\"classic\",\"stars\":5\x7d" := by
  refine ⟨?_, rfl, rfl, rfl, rfl, rfl, rfl, by decide⟩
  have h1 : goEscape "id" = "id" := by decide
  have h2 : goEscape "title" = "title" := by decide
  have h3 : goEscape "description" = "description" := by decide
  have h4 : goEscape "stars" = "stars" := by decide
  simp only [gameMarshal, renderJObj, gameEventFields, renderFields, renderField,
    renderJVal, h1, h2, h3, h4]
  apply String.ext
  simp only [String.data_append, List.append_assoc]
  norm_num

/-- C9: the RabbitMQ backend marks every published message persistent —
the `amqp.Publishing` it sends to the `game_events` exchange carries
delivery mode 2 and content type `application/json`, with the marshalled
game as body. -/
theorem c9_persistent_delivery_mode (g : Game) :
    (rabbitStarPublish g).msg.deliveryMode = 2 ∧
    (rabbitStarPublish g).exchange = "game_events" ∧
    (rabbitStarPublish g).msg.contentType = "application/json" ∧
    (rabbitStarPublish g).msg.body = gameMarshal g := by
  exact ⟨rfl, rfl, rfl, rfl⟩

/-- C10: the email service's Kafka reader is configured with consumer
group `email-service-group` and `StartOffset = LastOffset`, so the group
starts at the log end at its first start and every message appended before
that point is never delivered to the consumer. -/
theorem c10_last_offset_skips_history :
    emailReaderConfig.groupID = "email-service-group" ∧
    emailReaderConfig.startOffset = KafkaStartPos.lastOffset ∧
    (∀ pre post : List String,
      deliveredToGroup emailReaderConfig (pre ++ post) pre.length = post) := by
  refine ⟨rfl, rfl, ?_⟩
  intro pre post
  simp [deliveredToGroup, initialGroupOffset, emailReaderConfig, List.drop_left]

end MqDispatch
